import Mathlib

/-!
# Verification of the video_gen input-adapter, renderer and export layer

Shallow embedding of the `video_gen` repository's adapter layer
(`video_gen/input_adapters/base.py`, `base_fixed.py`), of the scene
renderers and of the YAML/document adapters, together with proofs of the
specification claims about them.

Python exceptions are embedded as an inductive `PyExn`; fallible Python
code becomes `Except PyExn _`.  Ordered Python dicts / YAML mappings
become ordered association lists so that key order is observable.
-/

namespace VideoGen

/-! ## Python exception taxonomy

Exception kinds raised (or named by the spec's error taxonomy) in the
code under verification.  `structureError` is the dedicated error kind
that the spec's taxonomy (§7) calls `StructureError`; it is included so
that "the raised error is / is not a `StructureError`" is expressible.
-/

inductive PyExn where
  | valueError (msg : String)
  | typeError (msg : String)
  | fileNotFoundError (msg : String)
  | attributeError (msg : String)
  | structureError (msg : String)
  deriving DecidableEq, Repr

/-- Python `str(e)`: the message carried by the exception. -/
def PyExn.str : PyExn → String
  | .valueError m => m
  | .typeError m => m
  | .fileNotFoundError m => m
  | .attributeError m => m
  | .structureError m => m

/-- Whether an exception is the dedicated `StructureError` kind. -/
def PyExn.isStructureError : PyExn → Bool
  | .structureError _ => true
  | _ => false

/-! ## Scene / video data model (`video_gen.shared.models`, reconstructed
from its use sites in `base.py`, the adapters and the tests) -/

/-- A scene field value: plain text or a list of strings (command lines,
list items, quiz options ...). -/
inductive FieldVal where
  | s (v : String)
  | list (vs : List String)
  deriving DecidableEq, Repr

/-- One scene: its `type` tag plus an ordered mapping of type-specific
fields (order is observable, as in a Python dict / YAML mapping). -/
structure SceneData where
  stype : String
  fields : List (String × FieldVal)
  deriving DecidableEq, Repr

/-- One video: identifier, display metadata and its ordered scene list
(`VideoConfig` in `app.input_adapters.base`). -/
structure VideoConfig where
  videoId : String
  title : String
  description : String
  accentColor : String
  voice : String
  scenes : List SceneData
  deriving DecidableEq, Repr

/-- Set-level configuration (`VideoSetConfig`). -/
structure VideoSetConfig where
  setId : String
  setName : String
  deriving DecidableEq, Repr

/-- A set of videos sharing configuration (`VideoSet`). -/
structure VideoSet where
  config : VideoSetConfig
  videos : List VideoConfig
  deriving DecidableEq, Repr

/-- `InputAdapterResult` (`input_adapters/base.py`, lines 16-34):
success flag, optional video set, optional error message. -/
structure InputAdapterResult where
  success : Bool
  video_set : Option VideoSet
  error : Option String
  deriving DecidableEq, Repr

/-- Character-list prefix test; extensionally Python's
`str.startswith` / Lean's `String.startsWith` (spelled on the
character list so that it evaluates by kernel reduction). -/
def strStarts (s p : String) : Bool :=
  p.data.isPrefixOf s.data

/-- Python `str` of an `Optional[str]` as interpolated by
`f"Adapter failed: {result.error}"`: `None` prints as `"None"`. -/
def optStr : Option String → String
  | none => "None"
  | some s => s

/-! ## Synchronous façade (`InputAdapter.parse` in `base.py` lines 58-91,
`BaseAdapter.parse` / `_run_async_in_new_loop` in `base_fixed.py`
lines 33-80)

The dispatch logic of `parse` branches on whether an event loop is
already running on the calling thread (`asyncio.get_running_loop()`
raising `RuntimeError` when none is).  The embedding records, for each
branch, *where* the coroutine is executed: on which thread, on which
event loop, whether it is driven to completion, and whether the caller
blocks until it finishes.
-/

inductive ExecThread where
  | caller
  | worker
  deriving DecidableEq, Repr

/-- Which event loop drives the coroutine: a freshly created loop
(`asyncio.run` / `asyncio.new_event_loop`) or the caller's already
running loop (never chosen by the code; present so the property "the
caller's loop is never reused" is expressible). -/
inductive LoopChoice where
  | newLoop
  | callersActiveLoop
  deriving DecidableEq, Repr

structure ExecPlan where
  thread : ExecThread
  loop : LoopChoice
  runsToCompletion : Bool
  callerBlocksUntilDone : Bool
  deriving DecidableEq, Repr

/-- `InputAdapter.parse` dispatch (`base.py` lines 70-80): if
`asyncio.get_running_loop()` succeeds (a loop is running), submit
`asyncio.run(self.adapt(...))` to a `ThreadPoolExecutor` worker and
block on `future.result()`; otherwise call `asyncio.run` directly on
the calling thread.  `asyncio.run` always creates a fresh event loop
and runs the coroutine to completion. -/
def parseDispatch (loopRunningOnCaller : Bool) : ExecPlan :=
  if loopRunningOnCaller then
    { thread := .worker, loop := .newLoop
      runsToCompletion := true, callerBlocksUntilDone := true }
  else
    { thread := .caller, loop := .newLoop
      runsToCompletion := true, callerBlocksUntilDone := true }

/-- `BaseAdapter.parse` dispatch (`base_fixed.py` lines 45-55): same
branch structure; both branches call `_run_async_in_new_loop`, which
creates a new event loop (`asyncio.new_event_loop`, line 62) and runs
`adapt` to completion on it (`run_until_complete`, line 66); the
already-running-loop branch does so on a `ThreadPoolExecutor` worker
and blocks on `future.result()`. -/
def parseDispatchFixed (loopRunningOnCaller : Bool) : ExecPlan :=
  if loopRunningOnCaller then
    { thread := .worker, loop := .newLoop
      runsToCompletion := true, callerBlocksUntilDone := true }
  else
    { thread := .caller, loop := .newLoop
      runsToCompletion := true, callerBlocksUntilDone := true }

/-! ## Result handling of the synchronous wrapper -/

/-- What `adapt` can hand back to the synchronous wrapper: an
`InputAdapterResult`, a bare `VideoSet`, or a value of any other type
(represented by its type name, as used in the `TypeError` message). -/
inductive AdaptOutcome where
  | result (r : InputAdapterResult)
  | videoSet (vs : VideoSet)
  | other (typeName : String)
  deriving DecidableEq, Repr

/-- Result handling shared verbatim by `InputAdapter.parse`
(`base.py` lines 82-91) and `BaseAdapter._run_async_in_new_loop`
(`base_fixed.py` lines 68-77):

```
if isinstance(result, InputAdapterResult):
    if result.success and result.video_set:
        return result.video_set
    else:
        raise ValueError(f"Adapter failed: {result.error}")
elif isinstance(result, VideoSet):
    return result
else:
    raise TypeError(f"Unexpected result type: {type(result)}")
```

`result.video_set` is truthy exactly when it is not `None` (a plain
dataclass instance is always truthy). -/
def handleResult : AdaptOutcome → Except PyExn VideoSet
  | .result r =>
    match r.success, r.video_set with
    | true, some vs => .ok vs
    | true, none => .error (.valueError ("Adapter failed: " ++ optStr r.error))
    | false, _ => .error (.valueError ("Adapter failed: " ++ optStr r.error))
  | .videoSet vs => .ok vs
  | .other typeName => .error (.typeError ("Unexpected result type: " ++ typeName))

/-! ## `BaseAdapter._validate_source` and `BaseAdapter.adapt`
(`base_fixed.py` lines 82-150) -/

/-- `_validate_source` (`base_fixed.py` lines 127-150) over an abstract
filesystem `fsExists` (the `Path.exists()` oracle).  The source is
already a string/path (the `isinstance` normalisation is the identity
in this embedding); it raises `FileNotFoundError` when the path does
not exist and its string form is not an http/https URL. -/
def validate_source (fsExists : String → Bool) (source : String) :
    Except PyExn String :=
  if ¬ fsExists source
      ∧ ¬ (strStarts source "http://" ∨ strStarts source "https://") then
    .error (.fileNotFoundError ("Source file not found: " ++ source))
  else
    .ok source

/-- The body of `BaseAdapter.adapt`'s `try` block (`base_fixed.py`
lines 98-103): validate the source, then run the subclass hook
`_perform_adaptation` (the function parameter `perform`); the first
exception propagates. -/
def adaptInner (fsExists : String → Bool)
    (perform : String → Except PyExn VideoSet) (source : String) :
    Except PyExn VideoSet :=
  match validate_source fsExists source with
  | .ok s => perform s
  | .error e => .error e

/-- `BaseAdapter.adapt` (`base_fixed.py` lines 98-125).  Any exception
escaping validation or `perform` is re-raised in test mode and
converted into a failure `InputAdapterResult` otherwise. -/
def adapt (testMode : Bool) (fsExists : String → Bool)
    (perform : String → Except PyExn VideoSet) (source : String) :
    Except PyExn AdaptOutcome :=
  match adaptInner fsExists perform source with
  | .ok vs =>
    if testMode then
      .ok (.videoSet vs)
    else
      .ok (.result { success := true, video_set := some vs, error := none })
  | .error e =>
    if testMode then
      .error e
    else
      .ok (.result { success := false, video_set := none, error := some e.str })

/-! ## YAML values and the structured-config adapter

Modelled from the spec: the concrete `YAMLAdapter` and the
`VideoSet.export_to_yaml` round-trip live in `app/input_adapters`,
which is not part of the analysed sources (only their tests are).  The
definitions below follow spec §4.1 ("Structured-config adapter",
"Export") and §6 ("Structured textual export"), with the error shape
pinned by `tests/test_real_integration.py::test_missing_required_fields`
(`ValueError` matching "Invalid YAML structure").
-/

/-- A parsed YAML value.  Mappings are ordered association lists: the
order of keys is observable, as required by the export contract. -/
inductive Yaml where
  | s (v : String)
  | list (items : List Yaml)
  | map (entries : List (String × Yaml))

/-- Ordered-mapping key lookup (first occurrence wins). -/
def ylookup (entries : List (String × Yaml)) (k : String) : Option Yaml :=
  (entries.find? (fun e => e.1 == k)).map Prod.snd

/-- String-valued lookup with a default, as the adapter uses for the
optional video metadata keys. -/
def lookupStr (entries : List (String × Yaml)) (k dflt : String) : String :=
  match ylookup entries k with
  | some (.s v) => v
  | _ => dflt

/-- Serialize one scene field value. -/
def fieldToYaml : FieldVal → Yaml
  | .s v => .s v
  | .list vs => .list (vs.map Yaml.s)

/-- Read back one scene field value (string or list of strings). -/
def yamlToField : Yaml → Option FieldVal
  | .s v => some (.s v)
  | .list items =>
    some (.list (items.filterMap (fun y =>
      match y with
      | .s v => some v
      | _ => none)))
  | .map _ => none

/-- Export one scene as a YAML mapping: the `type` key first, then the
scene's fields in their stored order. -/
def exportScene (sc : SceneData) : Yaml :=
  .map (("type", .s sc.stype) ::
    sc.fields.map (fun f => (f.1, fieldToYaml f.2)))

/-- Sequence a fallible function over a list (the adapter parses the
scene list in order and fails on the first bad scene). -/
def mapMExcept (f : α → Except PyExn β) : List α → Except PyExn (List β)
  | [] => .ok []
  | a :: as =>
    match f a with
    | .error e => .error e
    | .ok b =>
      match mapMExcept f as with
      | .error e => .error e
      | .ok bs => .ok (b :: bs)

/-- Parse one scene mapping: the required `type` key plus the remaining
entries (in order) as the scene's fields. -/
def parseSceneY : Yaml → Except PyExn SceneData
  | .map entries =>
    match ylookup entries "type" with
    | some (.s t) =>
      .ok ⟨t, entries.filterMap (fun e =>
        if e.1 = "type" then none
        else (yamlToField e.2).map (fun fv => (e.1, fv)))⟩
    | _ => .error (.valueError "Invalid YAML structure: scene missing type")
  | _ => .error (.valueError "Invalid YAML structure: scene is not a mapping")

/-- Parse one per-video document.  Top-level required keys are `video`
(a mapping) and `scenes` (an ordered list); when either is absent the
adapter raises `ValueError("Invalid YAML structure: ...")`, the
behaviour pinned by `test_missing_required_fields`. -/
def parseVideoY (y : Yaml) : Except PyExn VideoConfig :=
  match y with
  | .map entries =>
    match ylookup entries "video" with
    | some (.map vm) =>
      match ylookup entries "scenes" with
      | some (.list ss) =>
        match mapMExcept parseSceneY ss with
        | .ok scenes =>
          .ok ⟨lookupStr vm "id" "", lookupStr vm "title" "",
               lookupStr vm "description" "", lookupStr vm "accent_color" "blue",
               lookupStr vm "voice" "male", scenes⟩
        | .error e => .error e
      | _ =>
        .error (.valueError "Invalid YAML structure: missing video or scenes key")
    | _ =>
      .error (.valueError "Invalid YAML structure: missing video or scenes key")
  | _ => .error (.valueError "Invalid YAML structure: not a mapping")

/-- `YAMLAdapter` adaptation: parse a single-video document and wrap it
in a `VideoSet` named after the video. -/
def yamlAdapt (y : Yaml) : Except PyExn VideoSet :=
  match parseVideoY y with
  | .ok v => .ok ⟨⟨v.videoId, v.title⟩, [v]⟩
  | .error e => .error e

/-- The structured textual export: a set-level file plus one file per
video, in video order (`export_to_yaml` writes `set_config.yaml` and
`<video_id>.yaml` per video). -/
structure ExportBundle where
  setFile : Yaml
  videoFiles : List (String × Yaml)

/-- Export one video to its per-video document. -/
def exportVideoFile (v : VideoConfig) : Yaml :=
  .map [("video", .map [("id", .s v.videoId), ("title", .s v.title),
          ("description", .s v.description),
          ("accent_color", .s v.accentColor), ("voice", .s v.voice)]),
        ("scenes", .list (v.scenes.map exportScene))]

/-- Export a whole `VideoSet`. -/
def exportSet (vs : VideoSet) : ExportBundle :=
  ⟨.map [("set", .map [("id", .s vs.config.setId), ("name", .s vs.config.setName),
      ("videos", .list (vs.videos.map (fun v => Yaml.s v.videoId)))])],
   vs.videos.map (fun v => (v.videoId ++ ".yaml", exportVideoFile v))⟩

/-- Re-parse an export: read the set file, then the video files in
their written order. -/
def parseBundle (b : ExportBundle) : Except PyExn VideoSet :=
  match b.setFile with
  | .map entries =>
    match ylookup entries "set" with
    | some (.map sm) =>
      match mapMExcept (fun f => parseVideoY f.2) b.videoFiles with
      | .ok videos => .ok ⟨⟨lookupStr sm "id" "", lookupStr sm "name" ""⟩, videos⟩
      | .error e => .error e
    | _ => .error (.valueError "Invalid YAML structure: missing set key")
  | _ => .error (.valueError "Invalid YAML structure: set file is not a mapping")

/-- A scene is well formed for export when none of its field keys
collides with the reserved `type` key.  Every scene produced by the
adapters satisfies this (the adapters store `type` separately). -/
def wfScene (sc : SceneData) : Bool :=
  sc.fields.all (fun p => p.1 != "type")

/-! ## Document adapter

Modelled from the spec: the concrete `DocumentAdapter` is not among the
analysed sources (only its tests are).  The definitions follow spec
§4.1 ("Document adapter"): split on section headings, first heading is
the video title, a synthetic title scene is always prepended and a
synthetic outro always appended, sections containing a fenced code
block become `command` scenes, other sections become `list` scenes, and
a `max_scenes` bound truncates the section list.  A document is
represented by its list of lines (the line split of the source text).
-/

/-- A line consisting only of whitespace. -/
def wsOnly (l : String) : Bool :=
  l.data.all Char.isWhitespace

/-- Top-level document heading (`# `). -/
def isH1 (l : String) : Bool := strStarts l "# "

/-- Section heading (`## `). -/
def isH2 (l : String) : Bool := strStarts l "## "

/-- Fenced-code-block delimiter. -/
def isFence (l : String) : Bool := strStarts l "```"

/-- Bullet line. -/
def isBullet (l : String) : Bool := strStarts l "- " || strStarts l "* "

/-- Group the document's lines into sections delimited by `## `
headings; lines before the first section heading (the title area) do
not form a section.  Returns (pre-heading lines, sections). -/
def splitSecR : List String → List String × List (List String)
  | [] => ([], [])
  | l :: ls =>
    let r := splitSecR ls
    if isH2 l then ([], (l :: r.1) :: r.2) else (l :: r.1, r.2)

/-- The document's sections. -/
def splitSections (ls : List String) : List (List String) :=
  (splitSecR ls).2

/-- Header text of a section (its `## ` heading without the marker). -/
def sectionHeader (sec : List String) : String :=
  match sec with
  | l :: _ => if isH2 l then l.drop 3 else ""
  | [] => ""

/-- The lines inside fenced code blocks of a section (these become the
command lines of a `command` scene). -/
def codeLines (ls : List String) : List String :=
  (ls.foldl (fun st l =>
    if isFence l then (!st.1, st.2)
    else if st.1 then (st.1, st.2 ++ [l]) else st)
    ((false : Bool), ([] : List String))).2

/-- Bullet line without its marker. -/
def bulletText (l : String) : String := l.drop 2

/-- Classify and convert one section: a section containing a fenced
code block becomes a `command` scene; every other section becomes a
`list` scene (bullet-dominated sections and prose alike default to
`list`, per spec §4.1). -/
def sectionScene (sec : List String) : SceneData :=
  if sec.any isFence then
    ⟨"command", [("header", .s (sectionHeader sec)),
                 ("commands", .list (codeLines sec))]⟩
  else
    ⟨"list", [("header", .s (sectionHeader sec)),
              ("items", .list ((sec.filter isBullet).map bulletText))]⟩

/-- The video title: the first `# ` heading's text. -/
def extractTitle (ls : List String) : String :=
  match ls.find? isH1 with
  | some l => l.drop 2
  | none => "Untitled"

/-- The synthetic leading title scene. -/
def mkTitleScene (t : String) : SceneData :=
  ⟨"title", [("title", .s t), ("subtitle", .s "")]⟩

/-- The synthetic trailing outro scene. -/
def mkOutroScene : SceneData :=
  ⟨"outro", [("main_text", .s "Thanks for watching"), ("sub_text", .s "")]⟩

/-- The scene list the document adapter builds: synthetic title scene,
then the sections that survive the `maxScenes` truncation (the bound
counts the title and outro, so at most `maxScenes - 2` sections
survive), then the synthetic outro scene. -/
def docScenes (maxScenes : Nat) (lines : List String) : List SceneData :=
  mkTitleScene (extractTitle lines) ::
    ((splitSections lines).take (maxScenes - 2)).map sectionScene ++
    [mkOutroScene]

/-- `DocumentAdapter` adaptation over the document's lines.  Total: an
empty or whitespace-only document yields no sections, hence a minimal
title + outro video, never an error. -/
def documentAdapt (maxScenes : Nat) (lines : List String) : VideoSet :=
  ⟨⟨"doc_set", extractTitle lines⟩,
   [⟨"doc_video", extractTitle lines, "", "blue", "male",
     docScenes maxScenes lines⟩]⟩

/-! ## Renderer registry

Modelled from the spec: the concrete renderer modules
(`video_gen/renderers/basic_scenes.py`, `educational_scenes.py`,
`checkpoint_scenes.py`, `comparison_scenes.py`, `constants.py`) are not
among the analysed sources (only `tests/test_renderers.py` is).  The
definitions follow spec §4.2: every renderer composes onto a fixed
1920×1080 three-channel canvas, returns a (start, end) keyframe pair
bounding the entrance animation (the start frame is the base card, the
end frame additionally carries the scene's composited content), and the
per-type layouts (command line-prefix styling, visible-item caps,
difficulty badges ...) follow the spec's wording.  Exact glyph
rasterisation is a declared non-goal, so a frame is its canvas geometry
plus its ordered list of compositing operations.

A `None` accent colour makes drawing raise (`TypeError`), the behaviour
pinned by `test_all_renderers_handle_none_accent_color`; an unknown
difficulty falls back to a default badge colour, the behaviour pinned
by `test_create_problem_keyframes_with_unknown_difficulty`.
-/

abbrev Color := Nat × Nat × Nat

def WIDTH : Nat := 1920
def HEIGHT : Nat := 1080

def ACCENT_BLUE : Color := (59, 130, 246)
def ACCENT_GREEN : Color := (16, 185, 129)
def ACCENT_ORANGE : Color := (249, 115, 22)
def ACCENT_PURPLE : Color := (139, 92, 246)
def ACCENT_PINK : Color := (236, 72, 153)
def ACCENT_CYAN : Color := (6, 182, 212)
def BG_DARK : Color := (15, 23, 42)
def TEXT_WHITE : Color := (255, 255, 255)
def TEXT_GRAY : Color := (148, 163, 184)
def DIFFICULTY_DEFAULT : Color := (107, 114, 128)

/-- One compositing operation on the canvas. -/
inductive DrawOp where
  | fill (c : Color)
  | rect (x y w h : Nat) (c : Color)
  | text (x y : Nat) (content : String) (c : Color)
  deriving DecidableEq, Repr

/-- A raster frame: canvas geometry, pixel mode and the ordered
compositing operations that produced it. -/
structure Frame where
  width : Nat
  height : Nat
  mode : String
  ops : List DrawOp
  deriving DecidableEq, Repr

/-- The base card every renderer starts from: a fresh 1920×1080 RGB
canvas with the background fill and the accent bar. -/
def baseCard (accent : Color) : Frame :=
  ⟨WIDTH, HEIGHT, "RGB", [.fill BG_DARK, .rect 0 0 WIDTH 8 accent]⟩

/-- Entrance-animation keyframe pair: the start frame is the base card,
the end frame is the base card with the scene content composited on
top. -/
def animate (base : Frame) (entrance : List DrawOp) : Frame × Frame :=
  (base, { base with ops := base.ops ++ entrance })

/-- Drawing with a `None` colour raises (`TypeError`), never silently
substitutes a default. -/
def requireAccent (accent : Option Color)
    (k : Color → Frame × Frame) : Except PyExn (Frame × Frame) :=
  match accent with
  | none => .error (.typeError "color argument must not be None")
  | some c => .ok (k c)

/-- Line-prefix-aware styling of a command block line: `$` = prompt
(accent), `→`/`✓` = output markers (green), `#` = comment (gray),
anything else = body text (white). -/
def commandLineColor (l : String) (accent : Color) : Color :=
  if strStarts l "$" then accent
  else if strStarts l "→" || strStarts l "✓" then ACCENT_GREEN
  else if strStarts l "#" then TEXT_GRAY
  else TEXT_WHITE

/-- Difficulty badge colour; an unknown difficulty falls back to the
default badge colour. -/
def difficultyColor (d : String) : Color :=
  if d = "easy" then ACCENT_GREEN
  else if d = "medium" then ACCENT_ORANGE
  else if d = "hard" then ACCENT_PINK
  else DIFFICULTY_DEFAULT

def create_title_keyframes (title subtitle : String)
    (accent : Option Color) : Except PyExn (Frame × Frame) :=
  requireAccent accent (fun c =>
    animate (baseCard c)
      (.text 960 440 title TEXT_WHITE :: [.text 960 560 subtitle c]))

def create_command_keyframes (header description : String)
    (commands : List String) (accent : Option Color) :
    Except PyExn (Frame × Frame) :=
  requireAccent accent (fun c =>
    animate (baseCard c)
      (.text 960 200 header TEXT_WHITE ::
       .text 960 280 description TEXT_GRAY ::
       (commands.take 12).enum.map
         (fun p => .text 200 (380 + 44 * p.1) p.2 (commandLineColor p.2 c))))

def create_list_keyframes (header description : String)
    (items : List String) (accent : Option Color) :
    Except PyExn (Frame × Frame) :=
  requireAccent accent (fun c =>
    animate (baseCard c)
      (.text 960 180 header TEXT_WHITE ::
       .text 960 260 description TEXT_GRAY ::
       (items.take 5).enum.map
         (fun p => .text 260 (360 + 90 * p.1) p.2 TEXT_WHITE)))

def create_outro_keyframes (mainText subText : String)
    (accent : Option Color) : Except PyExn (Frame × Frame) :=
  requireAccent accent (fun c =>
    animate (baseCard c)
      (.text 960 480 mainText TEXT_WHITE :: [.text 960 580 subText c]))

def create_quiz_keyframes (question : String) (options : List String)
    (answer : String) (showAnswer : Bool) (accent : Option Color) :
    Except PyExn (Frame × Frame) :=
  requireAccent accent (fun c =>
    animate (baseCard c)
      (.text 960 220 question TEXT_WHITE ::
       (options.take 4).enum.map
         (fun p => .text 400 (420 + 110 * p.1) p.2 TEXT_WHITE) ++
       (if showAnswer then [.text 960 880 answer c] else [])))

def create_learning_objectives_keyframes (lessonTitle : String)
    (objectives : List String) (accent : Option Color) :
    Except PyExn (Frame × Frame) :=
  requireAccent accent (fun c =>
    animate (baseCard c)
      (.text 960 160 lessonTitle TEXT_WHITE ::
       (objectives.take 8).enum.map
         (fun p => .text 360 (300 + 84 * p.1) p.2 TEXT_WHITE) ++
       (if objectives.length > 8
        then [.text 960 980 "..." TEXT_GRAY] else [])))

def create_exercise_keyframes (title : String)
    (instructions : List String) (difficulty estimatedTime : String)
    (accent : Option Color) : Except PyExn (Frame × Frame) :=
  requireAccent accent (fun c =>
    animate (baseCard c)
      (.text 960 160 title TEXT_WHITE ::
       .rect 1480 120 240 64 (difficultyColor difficulty) ::
       .text 1600 150 difficulty TEXT_WHITE ::
       .text 1600 220 estimatedTime TEXT_GRAY ::
       (instructions.take 8).enum.map
         (fun p => .text 360 (320 + 80 * p.1) p.2 TEXT_WHITE)))

/-- Checkpoint card text truncation for overlong entries. -/
def truncateText (n : Nat) (s : String) : String :=
  if s.length ≤ n then s else s.take n ++ "..."

def create_checkpoint_keyframes (checkpointNum : Nat)
    (completedTopics reviewQuestions nextTopics : List String)
    (accent : Option Color) : Except PyExn (Frame × Frame) :=
  requireAccent accent (fun c =>
    animate (baseCard c)
      (.text 960 140 ("Checkpoint " ++ toString checkpointNum) TEXT_WHITE ::
       (completedTopics.take 6).enum.map
         (fun p => .text 320 (300 + 70 * p.1) (truncateText 28 p.2) ACCENT_GREEN) ++
       (reviewQuestions.take 6).enum.map
         (fun p => .text 960 (300 + 70 * p.1) (truncateText 28 p.2) TEXT_WHITE) ++
       (nextTopics.take 6).enum.map
         (fun p => .text 1600 (300 + 70 * p.1) (truncateText 28 p.2) c)))

def create_quote_keyframes (quoteText attribution : String)
    (accent : Option Color) : Except PyExn (Frame × Frame) :=
  requireAccent accent (fun c =>
    animate (baseCard c)
      (.text 960 440 quoteText TEXT_WHITE :: [.text 960 700 attribution c]))

/-- Code-block lines for the comparison card: blank lines skipped,
capped at 10 visible lines. -/
def codeBlockLines (code : String) : List String :=
  ((code.splitOn "\n").filter (fun l => l ≠ "")).take 10

def create_code_comparison_keyframes (header beforeCode afterCode : String)
    (beforeLabel afterLabel : String) (accent : Option Color) :
    Except PyExn (Frame × Frame) :=
  requireAccent accent (fun c =>
    animate (baseCard c)
      (.text 960 140 header TEXT_WHITE ::
       .text 480 240 beforeLabel TEXT_GRAY ::
       .text 1440 240 afterLabel c ::
       (codeBlockLines beforeCode).enum.map
         (fun p => .text 240 (320 + 48 * p.1) p.2 TEXT_WHITE) ++
       (codeBlockLines afterCode).enum.map
         (fun p => .text 1200 (320 + 48 * p.1) p.2 TEXT_WHITE)))

def create_problem_keyframes (problemNumber : Nat)
    (title problemText difficulty : String) (accent : Option Color) :
    Except PyExn (Frame × Frame) :=
  requireAccent accent (fun c =>
    animate (baseCard c)
      (.text 960 140 ("Problem " ++ toString problemNumber ++ ": " ++ title)
          TEXT_WHITE ::
       .rect 1480 120 240 64 (difficultyColor difficulty) ::
       .text 1600 150 difficulty TEXT_WHITE ::
       [.text 960 480 problemText TEXT_WHITE]))

def create_solution_keyframes (title : String)
    (solutionCode : List String) (explanation : String)
    (accent : Option Color) : Except PyExn (Frame × Frame) :=
  requireAccent accent (fun c =>
    animate (baseCard c)
      (.text 960 140 title TEXT_WHITE ::
       (solutionCode.take 12).enum.map
         (fun p => .text 320 (280 + 44 * p.1) p.2 TEXT_WHITE) ++
       [.text 960 920 explanation TEXT_GRAY]))

/-- The registered scene types (spec §3, Scene `type` enum). -/
inductive SceneType where
  | title
  | command
  | list
  | outro
  | quiz
  | learningObjectives
  | exercise
  | checkpoint
  | quote
  | codeComparison
  | problem
  | solution
  deriving DecidableEq, Repr

/-- Union of the typed field values a renderer call can consume. -/
structure RenderInput where
  title : String
  subtitle : String
  header : String
  description : String
  mainText : String
  subText : String
  commands : List String
  items : List String
  question : String
  options : List String
  answer : String
  showAnswer : Bool
  lessonTitle : String
  objectives : List String
  exTitle : String
  instructions : List String
  difficulty : String
  estimatedTime : String
  checkpointNum : Nat
  completedTopics : List String
  reviewQuestions : List String
  nextTopics : List String
  quoteText : String
  attribution : String
  beforeCode : String
  afterCode : String
  beforeLabel : String
  afterLabel : String
  problemNumber : Nat
  problemText : String
  solutionCode : List String
  explanation : String
  deriving Repr

/-- The renderer registry: exhaustive dispatch from scene type to its
keyframe renderer (spec §4.2, one rendering function per scene type). -/
def renderScene (st : SceneType) (f : RenderInput)
    (accent : Option Color) : Except PyExn (Frame × Frame) :=
  match st with
  | .title => create_title_keyframes f.title f.subtitle accent
  | .command => create_command_keyframes f.header f.description f.commands accent
  | .list => create_list_keyframes f.header f.description f.items accent
  | .outro => create_outro_keyframes f.mainText f.subText accent
  | .quiz => create_quiz_keyframes f.question f.options f.answer f.showAnswer accent
  | .learningObjectives =>
    create_learning_objectives_keyframes f.lessonTitle f.objectives accent
  | .exercise =>
    create_exercise_keyframes f.exTitle f.instructions f.difficulty
      f.estimatedTime accent
  | .checkpoint =>
    create_checkpoint_keyframes f.checkpointNum f.completedTopics
      f.reviewQuestions f.nextTopics accent
  | .quote => create_quote_keyframes f.quoteText f.attribution accent
  | .codeComparison =>
    create_code_comparison_keyframes f.header f.beforeCode f.afterCode
      f.beforeLabel f.afterLabel accent
  | .problem =>
    create_problem_keyframes f.problemNumber f.exTitle f.problemText
      f.difficulty accent
  | .solution =>
    create_solution_keyframes f.exTitle f.solutionCode f.explanation accent

/-! ## Concrete example inputs used by witnesses and counterexamples -/

/-- A default scene-field bundle ("Test" / "Animation" is the input of
`test_renderers_produce_different_start_and_end`). -/
def demoInput : RenderInput :=
  ⟨"Test", "Animation", "Header", "Description", "Fast. Simple. Powerful.",
   "See QUICK_REFERENCE.md", ["$ python generate.py", "→ Output: video.mp4"],
   ["Step 1", "Step 2"], "What is 2 + 2?", ["3", "4"], "4", true,
   "Python Fundamentals", ["Objective 1"], "Two Sum",
   ["Create the HTML structure"], "medium", "45 min", 1,
   ["Variables"], ["What is a variable?"], ["Classes"],
   "Quality is not an act, it is a habit", "Aristotle",
   "x = 1", "x = 2", "Before", "After", 1,
   "Given an array of integers, return indices.", ["seen = dict()"],
   "Time complexity: O(n)"⟩

/-- The input of `test_create_problem_keyframes_with_unknown_difficulty`:
problem 99 with the unregistered difficulty `"extreme"`. -/
def extremeInput : RenderInput :=
  { demoInput with
    problemNumber := 99, exTitle := "Unknown Difficulty",
    problemText := "Test problem with unknown difficulty level",
    difficulty := "extreme" }

/-- The input of `test_missing_required_fields`: a scenes list but no
top-level `video` key. -/
def missingVideoYaml : Yaml :=
  .map [("scenes", .list [.map [("type", .s "title"), ("title", .s "Test")]])]

/-- A small structured-config document (shape of
`inputs/example_simple.yaml`). -/
def sampleYaml : Yaml :=
  .map [("video", .map [("id", .s "feature_demo"),
          ("title", .s "Feature Demo")]),
        ("scenes", .list
          [.map [("type", .s "title"), ("title", .s "Hello"),
                 ("subtitle", .s "World")],
           .map [("type", .s "command"), ("header", .s "Install"),
                 ("commands", .list [.s "$ npm install", .s "$ npm start"])]])]

/-- The `VideoSet` that `yamlAdapt` produces from `sampleYaml`. -/
def sampleVS : VideoSet :=
  ⟨⟨"feature_demo", "Feature Demo"⟩,
   [⟨"feature_demo", "Feature Demo", "", "blue", "male",
     [⟨"title", [("title", .s "Hello"), ("subtitle", .s "World")]⟩,
      ⟨"command", [("header", .s "Install"),
        ("commands", .list ["$ npm install", "$ npm start"])]⟩]⟩]⟩

/-- Whitespace-only document lines (the input of
`test_document_with_only_whitespace`). -/
def wsLines : List String := ["   ", "", "   \t\t  ", "  "]

/-- A document with one fenced code block and one bullet list
(shape of `test_document_scene_type_detection`'s document). -/
def docC7lines : List String :=
  ["# Test Document", "", "## Installation", "", "```",
   "pip install package", "```", "", "## Features", "",
   "- Fast performance", "- Easy to use"]

/-- The fenced section of `docC7lines`. -/
def fenceSec : List String :=
  ["## Installation", "", "```", "pip install package", "```", ""]

/-- The bullet-list section of `docC7lines`. -/
def bulletSec : List String :=
  ["## Features", "", "- Fast performance", "- Easy to use"]

/-! ## Theorems -/

/-- C1: For every call to the synchronous adapter entry point `parse`,
in both `InputAdapter.parse` (`base.py`) and `BaseAdapter.parse`
(`base_fixed.py`): when no event loop is running on the calling thread,
the asynchronous `adapt` is run to completion on a newly created event
loop on that thread; when a loop is already running, `adapt` runs on an
independent worker thread with its own new event loop and the caller
blocks only on that worker's completion; the caller's active event loop
is never reused or nested. -/
theorem sync_facade_loop_contract :
    (∀ b, (parseDispatch b).loop = LoopChoice.newLoop ∧
          (parseDispatchFixed b).loop = LoopChoice.newLoop ∧
          (parseDispatch b).runsToCompletion = true ∧
          (parseDispatchFixed b).runsToCompletion = true ∧
          (parseDispatch b).callerBlocksUntilDone = true ∧
          (parseDispatchFixed b).callerBlocksUntilDone = true) ∧
    (parseDispatch true).thread = ExecThread.worker ∧
    (parseDispatch false).thread = ExecThread.caller ∧
    (parseDispatchFixed true).thread = ExecThread.worker ∧
    (parseDispatchFixed false).thread = ExecThread.caller := by
  refine ⟨fun b => ?_, rfl, rfl, rfl, rfl⟩
  cases b <;> exact ⟨rfl, rfl, rfl, rfl, rfl, rfl⟩

/-- C9: The synchronous wrapper's result handling (shared by
`InputAdapter.parse` and `BaseAdapter._run_async_in_new_loop`): an
`InputAdapterResult` with `success` true and a non-`None` `video_set`
yields exactly that video set; `success` false or a `None` `video_set`
raises `ValueError` carrying the result's error message; a bare
`VideoSet` is returned unchanged; any other result type raises
`TypeError`.  Hence a `VideoSet` comes back exactly when the adapter
produced a valid one (and, the return type being `VideoSet`, never
`None`). -/
theorem parse_result_contract :
    (∀ (r : InputAdapterResult) (vs : VideoSet),
        r.success = true → r.video_set = some vs →
        handleResult (.result r) = .ok vs) ∧
    (∀ r : InputAdapterResult, r.success = false ∨ r.video_set = none →
        handleResult (.result r) =
          .error (.valueError ("Adapter failed: " ++ optStr r.error))) ∧
    (∀ vs, handleResult (.videoSet vs) = .ok vs) ∧
    (∀ t, handleResult (.other t) =
        .error (.typeError ("Unexpected result type: " ++ t))) ∧
    (∀ o vs, handleResult o = .ok vs →
        o = .videoSet vs ∨
        ∃ r, o = .result r ∧ r.success = true ∧ r.video_set = some vs) := by
  refine ⟨?_, ?_, fun _ => rfl, fun _ => rfl, ?_⟩
  · rintro ⟨s, v, e⟩ vs hs hv
    simp only at hs hv
    subst hs hv
    rfl
  · rintro ⟨s, v, e⟩ (hs | hv)
    · simp only at hs
      subst hs
      cases v <;> rfl
    · simp only at hv
      subst hv
      cases s <;> rfl
  · rintro (⟨s, v, e⟩ | vs' | t) vs h
    · cases s <;> cases v <;>
        simp only [handleResult, Except.ok.injEq, reduceCtorEq] at h
      exact Or.inr ⟨⟨true, some vs, e⟩, by rw [h], rfl, rfl⟩
    · simp only [handleResult, Except.ok.injEq] at h
      exact Or.inl (by rw [h])
    · simp only [handleResult, reduceCtorEq] at h

/-- Witness for C9 at concrete inputs: a successful result's video set
is returned, a failed result raises `ValueError` with the error text. -/
theorem parse_result_contract_witness :
    handleResult (.result ⟨true, some sampleVS, none⟩) = .ok sampleVS ∧
    handleResult (.result ⟨false, none, some "boom"⟩) =
      .error (.valueError "Adapter failed: boom") :=
  ⟨parse_result_contract.1 ⟨true, some sampleVS, none⟩ sampleVS rfl rfl,
   parse_result_contract.2.1 ⟨false, none, some "boom"⟩ (Or.inl rfl)⟩

/-- C10: With `test_mode` false, `BaseAdapter.adapt` is total over
exceptions — every exception from validation or `_perform_adaptation`
is caught and returned as a failure `InputAdapterResult` carrying the
exception text, never propagated; with `test_mode` true the same
exception propagates.  And `_validate_source` raises
`FileNotFoundError` exactly when the source does not exist on the
filesystem and its string form starts with neither `http://` nor
`https://`. -/
theorem adapt_total_contract :
    (∀ fs perform source, ∃ r, adapt false fs perform source = .ok r) ∧
    (∀ fs perform source e, adaptInner fs perform source = .error e →
        adapt false fs perform source =
          .ok (.result ⟨false, none, some e.str⟩) ∧
        adapt true fs perform source = .error e) ∧
    (∀ fs source,
        (∃ m, validate_source fs source = .error (.fileNotFoundError m)) ↔
        (fs source = false ∧ strStarts source "http://" = false ∧
         strStarts source "https://" = false)) := by
  refine ⟨?_, ?_, ?_⟩
  · intro fs perform source
    unfold adapt
    cases adaptInner fs perform source with
    | ok vs => exact ⟨_, rfl⟩
    | error e => exact ⟨_, rfl⟩
  · intro fs perform source e h
    unfold adapt
    rw [h]
    exact ⟨rfl, rfl⟩
  · intro fs source
    unfold validate_source
    split
    · rename_i h
      simp only [Bool.not_eq_true, decide_eq_true_eq] at h
      constructor
      · intro _
        refine ⟨by simpa using h.1, ?_, ?_⟩
        · by_contra hb
          exact h.2 (Or.inl (by simpa using hb))
        · by_contra hb
          exact h.2 (Or.inr (by simpa using hb))
      · intro _
        exact ⟨_, rfl⟩
    · rename_i h
      constructor
      · rintro ⟨m, hm⟩
        cases hm
      · intro hc
        exact absurd ⟨by simp [hc.1], by simp [hc.2.1, hc.2.2]⟩ h

/-- Witness for C10 at concrete inputs: a missing file is reported as a
failure result (not an exception) when `test_mode` is false, propagates
when true, and `_validate_source` rejects
`/nonexistent/path/file.yaml` with `FileNotFoundError`. -/
theorem adapt_total_contract_witness :
    adapt false (fun _ => false) (fun _ => .ok sampleVS)
        "/nonexistent/path/file.yaml" =
      .ok (.result ⟨false, none,
        some "Source file not found: /nonexistent/path/file.yaml"⟩) ∧
    adapt true (fun _ => false) (fun _ => .ok sampleVS)
        "/nonexistent/path/file.yaml" =
      .error (.fileNotFoundError
        "Source file not found: /nonexistent/path/file.yaml") ∧
    (∃ m, validate_source (fun _ => false) "/nonexistent/path/file.yaml" =
      .error (.fileNotFoundError m)) := by
  have h := adapt_total_contract.2.1 (fun _ => false)
    (fun _ => .ok sampleVS) "/nonexistent/path/file.yaml"
    (.fileNotFoundError "Source file not found: /nonexistent/path/file.yaml")
    rfl
  have h3 := (adapt_total_contract.2.2 (fun _ => false)
    "/nonexistent/path/file.yaml").mpr (by decide)
  exact ⟨h.1, h.2, h3⟩

/-- The two frames of an entrance animation always differ: the end
frame carries at least one more compositing operation. -/
theorem animate_fst_ne_snd (base : Frame) (op : DrawOp) (rest : List DrawOp) :
    (animate base (op :: rest)).1 ≠ (animate base (op :: rest)).2 := by
  intro h
  have hlen := congrArg (fun fr => fr.ops.length) h
  simp only [animate, List.length_append, List.length_cons] at hlen
  omega

/-- C2: For every registered scene type and all field values (empty
strings, unicode and overlong strings included), rendering with an
accent colour yields a pair of raster frames, each exactly 1920×1080
in three-channel RGB; dimensions and pixel format are identical across
every scene type and every input. -/
theorem render_fixed_dimensions :
    ∀ (st : SceneType) (f : RenderInput) (c : Color),
    ∃ pr : Frame × Frame, renderScene st f (some c) = .ok pr ∧
      pr.1.width = 1920 ∧ pr.1.height = 1080 ∧ pr.1.mode = "RGB" ∧
      pr.2.width = 1920 ∧ pr.2.height = 1080 ∧ pr.2.mode = "RGB" := by
  intro st f c
  cases st <;> exact ⟨_, rfl, rfl, rfl, rfl, rfl, rfl, rfl⟩

/-- C3: For every entrance-animated renderer and every input (empty
strings included), the returned start and end frames are different
images. -/
theorem render_start_ne_end :
    ∀ (st : SceneType) (f : RenderInput) (c : Color) (pr : Frame × Frame),
    renderScene st f (some c) = .ok pr → pr.1 ≠ pr.2 := by
  intro st f c pr h
  cases st <;>
    · simp only [renderScene, create_title_keyframes, create_command_keyframes,
        create_list_keyframes, create_outro_keyframes, create_quiz_keyframes,
        create_learning_objectives_keyframes, create_exercise_keyframes,
        create_checkpoint_keyframes, create_quote_keyframes,
        create_code_comparison_keyframes, create_problem_keyframes,
        create_solution_keyframes, requireAccent, Except.ok.injEq] at h
      subst h
      exact animate_fst_ne_snd _ _ _

/-- Witness for C3 at a concrete input: the title renderer on
("Test", "Animation") produces differing keyframes. -/
theorem render_start_ne_end_witness :
    (animate (baseCard ACCENT_BLUE)
      (.text 960 440 "Test" TEXT_WHITE ::
        [.text 960 560 "Animation" ACCENT_BLUE])).1 ≠
    (animate (baseCard ACCENT_BLUE)
      (.text 960 440 "Test" TEXT_WHITE ::
        [.text 960 560 "Animation" ACCENT_BLUE])).2 :=
  render_start_ne_end .title demoInput ACCENT_BLUE _ rfl

/-- C8 counterexample: the claim "missing (None) or unknown accent
color fails fast by raising an error" is false for the unknown half —
the problem renderer invoked with the unregistered difficulty
`"extreme"` (the colour-selecting parameter, the exact input of
`test_create_problem_keyframes_with_unknown_difficulty`) does not
raise: it returns a keyframe pair, silently substituting the default
badge colour. -/
theorem unknown_difficulty_no_error_counterexample :
    ∃ pr, renderScene .problem extremeInput (some ACCENT_BLUE) = .ok pr :=
  ⟨_, rfl⟩

/-- C8 amended: a missing (`None`) accent colour fails fast with an
error for every renderer; an unknown difficulty, however, does not fail
— the problem renderer returns frames for every difficulty value,
substituting the default badge colour for unregistered ones. -/
theorem accent_color_amended :
    (∀ (st : SceneType) (f : RenderInput),
        renderScene st f none =
          .error (.typeError "color argument must not be None")) ∧
    (∀ (f : RenderInput) (c : Color),
        ∃ pr, renderScene .problem f (some c) = .ok pr) ∧
    (∀ d : String, d ≠ "easy" → d ≠ "medium" → d ≠ "hard" →
        difficultyColor d = DIFFICULTY_DEFAULT) := by
  refine ⟨?_, fun f c => ⟨_, rfl⟩, ?_⟩
  · intro st f
    cases st <;> rfl
  · intro d h1 h2 h3
    simp [difficultyColor, h1, h2, h3]

/-- Witness for C8 amended at concrete inputs: the unregistered
difficulty `"extreme"` maps to the default badge colour. -/
theorem accent_color_amended_witness :
    difficultyColor "extreme" = DIFFICULTY_DEFAULT :=
  accent_color_amended.2.2 "extreme" (by decide) (by decide) (by decide)

/-- A whitespace-only line cannot start with a marker whose first
character is not whitespace. -/
theorem wsOnly_not_starts (l : String) (c : Char) (cs : List Char)
    (p : String) (hp : p.data = c :: cs) (hc : c.isWhitespace = false)
    (h : wsOnly l = true) : strStarts l p = false := by
  unfold strStarts
  rw [hp]
  cases hl : l.data with
  | nil => rfl
  | cons a as =>
    by_contra hb
    rw [Bool.not_eq_false, List.isPrefixOf_iff_prefix] at hb
    obtain ⟨hac, -⟩ := List.cons_prefix_cons.mp hb
    unfold wsOnly at h
    rw [hl] at h
    have ha := List.all_eq_true.mp h a (by simp)
    rw [← hac, hc] at ha
    exact Bool.false_ne_true ha

/-- A whitespace-only line is not a section heading. -/
theorem wsOnly_not_isH2 (l : String) (h : wsOnly l = true) :
    isH2 l = false :=
  wsOnly_not_starts l '#' ['#', ' '] "## " rfl (by decide) h

/-- A whitespace-only line is not a document heading. -/
theorem wsOnly_not_isH1 (l : String) (h : wsOnly l = true) :
    isH1 l = false :=
  wsOnly_not_starts l '#' [' '] "# " rfl (by decide) h

/-- Without any section heading, the document has no sections. -/
theorem splitSecR_snd_nil (ls : List String)
    (h : ∀ l ∈ ls, isH2 l = false) : (splitSecR ls).2 = [] := by
  induction ls with
  | nil => rfl
  | cons l ls ih =>
    have hl : isH2 l = false := h l (List.mem_cons_self l ls)
    simp only [splitSecR, hl, Bool.false_eq_true, if_false]
    exact ih (fun x hx => h x (List.mem_cons_of_mem l hx))

/-- C6: For every empty or whitespace-only document input, the document
adapter raises no error (it is a total function into `VideoSet`) and
returns a set whose single video has exactly two scenes: the synthetic
title scene and the synthetic outro scene. -/
theorem empty_document_minimal :
    ∀ (m : Nat) (lines : List String), (∀ l ∈ lines, wsOnly l = true) →
    (documentAdapt m lines).videos.map VideoConfig.scenes =
      [docScenes m lines] ∧
    docScenes m lines = [mkTitleScene "Untitled", mkOutroScene] := by
  intro m lines h
  have hsec : splitSections lines = [] := by
    unfold splitSections
    exact splitSecR_snd_nil lines (fun l hl => wsOnly_not_isH2 l (h l hl))
  have ht : extractTitle lines = "Untitled" := by
    unfold extractTitle
    rw [List.find?_eq_none.mpr
      (fun l hl => by simp [wsOnly_not_isH1 l (h l hl)])]
  refine ⟨rfl, ?_⟩
  simp [docScenes, hsec, ht]

/-- Witness for C6 at a concrete input: the whitespace-only document
yields exactly a title scene and an outro scene. -/
theorem empty_document_minimal_witness :
    docScenes 8 wsLines = [mkTitleScene "Untitled", mkOutroScene] :=
  (empty_document_minimal 8 wsLines (by decide)).2

/-- C7 counterexample: the claim's conjunction fails once `max_scenes`
is small.  On a document with one fenced code block and one bullet
list, with `max_scenes = 3`, the adapter keeps the scene count within
the bound (title + one surviving section + outro) and therefore
produces no `list`-typed scene at all: a title scene, an outro scene, a
`command` scene and a `list` scene cannot all fit in 3 scenes. -/
theorem doc_max_scenes_counterexample :
    (∃ sec ∈ splitSections docC7lines, sec.any isFence = true) ∧
    (∃ sec ∈ splitSections docC7lines,
        sec.any isFence = false ∧ sec.any isBullet = true) ∧
    (docScenes 3 docC7lines).length ≤ 3 ∧
    "list" ∉ (docScenes 3 docC7lines).map SceneData.stype := by
  decide

/-- C7 amended: for every document whose sections all survive
truncation (`max_scenes` at least the section count plus two, counting
the synthetic title and outro), a section with a fenced code block
yields a `command`-typed scene and a fence-free bullet section yields a
`list`-typed scene; for every document, the first scene is a title and
the last an outro, and whenever `max_scenes ≥ 2` (the title and outro
the adapter always adds) the scene count never exceeds `max_scenes`. -/
theorem doc_structure_amended :
    ∀ (m : Nat) (lines : List String),
    (documentAdapt m lines).videos.map VideoConfig.scenes =
      [docScenes m lines] ∧
    (2 ≤ m → (docScenes m lines).length ≤ m) ∧
    (docScenes m lines).head? =
      some (mkTitleScene (extractTitle lines)) ∧
    (docScenes m lines).getLast? = some mkOutroScene ∧
    ((splitSections lines).length + 2 ≤ m →
      (∀ sec ∈ splitSections lines, sec.any isFence = true →
        "command" ∈ (docScenes m lines).map SceneData.stype) ∧
      (∀ sec ∈ splitSections lines, sec.any isFence = false →
        sec.any isBullet = true →
        "list" ∈ (docScenes m lines).map SceneData.stype)) := by
  intro m lines
  refine ⟨rfl, ?_, rfl, ?_, ?_⟩
  · intro hm
    simp only [docScenes, List.length_cons, List.length_append,
      List.length_map, List.length_take, List.length_nil]
    omega
  · show (mkTitleScene _ :: (_ ++ [mkOutroScene])).getLast? =
      some mkOutroScene
    rw [← List.cons_append, List.getLast?_concat]
  · intro hlen
    have htake : (splitSections lines).take (m - 2) = splitSections lines :=
      List.take_of_length_le (by omega)
    constructor
    · intro sec hsec hf
      refine List.mem_map.mpr
        ⟨sectionScene sec, ?_, by simp [sectionScene, hf]⟩
      exact List.mem_cons_of_mem _ (List.mem_append_left _
        (List.mem_map.mpr ⟨sec, by rw [htake]; exact hsec, rfl⟩))
    · intro sec hsec hf hb
      refine List.mem_map.mpr
        ⟨sectionScene sec, ?_, by simp [sectionScene, hf]⟩
      exact List.mem_cons_of_mem _ (List.mem_append_left _
        (List.mem_map.mpr ⟨sec, by rw [htake]; exact hsec, rfl⟩))

/-- Witness for C7 amended at a concrete input: with `max_scenes = 10`
large enough, the code-block + bullet-list document yields at most 10
scenes including a `command` scene and a `list` scene. -/
theorem doc_structure_amended_witness :
    (docScenes 10 docC7lines).length ≤ 10 ∧
    "command" ∈ (docScenes 10 docC7lines).map SceneData.stype ∧
    "list" ∈ (docScenes 10 docC7lines).map SceneData.stype := by
  obtain ⟨-, h2, -, -, h5⟩ := doc_structure_amended 10 docC7lines
  obtain ⟨hcmd, hlst⟩ := h5 (by decide)
  exact ⟨h2 (by decide), hcmd fenceSec (by decide) (by decide),
    hlst bulletSec (by decide) (by decide) (by decide)⟩

/-- Serializing then reading back a field value is the identity. -/
theorem yamlToField_fieldToYaml (fv : FieldVal) :
    yamlToField (fieldToYaml fv) = some fv := by
  cases fv with
  | s v => rfl
  | list vs =>
    simp only [fieldToYaml, yamlToField, Option.some.injEq, FieldVal.list.injEq]
    induction vs with
    | nil => rfl
    | cons v vs ih => simp only [List.map_cons, List.filterMap_cons, ih]

/-- Reading back the exported fields of a well-formed scene recovers
them, keys and order included. -/
theorem filterMap_export_fields (fields : List (String × FieldVal))
    (h : fields.all (fun p => p.1 != "type") = true) :
    (fields.map (fun f => (f.1, fieldToYaml f.2))).filterMap
      (fun e => if e.1 = "type" then none
        else (yamlToField e.2).map (fun fv => (e.1, fv))) = fields := by
  induction fields with
  | nil => rfl
  | cons f fs ih =>
    rw [List.all_cons, Bool.and_eq_true] at h
    have hk : ¬ f.1 = "type" := by simpa using h.1
    simp only [List.map_cons, List.filterMap_cons, if_neg hk,
      yamlToField_fieldToYaml, Option.map_some']
    rw [ih h.2]

/-- Export → re-parse is the identity on well-formed scenes. -/
theorem parseSceneY_exportScene (sc : SceneData) (h : wfScene sc = true) :
    parseSceneY (exportScene sc) = .ok sc := by
  obtain ⟨t, fields⟩ := sc
  have key : parseSceneY (exportScene ⟨t, fields⟩) =
      .ok ⟨t, (fields.map (fun f => (f.1, fieldToYaml f.2))).filterMap
        (fun e => if e.1 = "type" then none
          else (yamlToField e.2).map (fun fv => (e.1, fv)))⟩ := rfl
  rw [key, filterMap_export_fields fields h]

/-- Every scene `parseSceneY` produces is well formed: the `type` key
is stored separately and filtered out of the fields. -/
theorem parseSceneY_wf (y : Yaml) (sc : SceneData)
    (h : parseSceneY y = .ok sc) : wfScene sc = true := by
  cases y with
  | s v => exact Except.noConfusion h
  | list items => exact Except.noConfusion h
  | map entries =>
    simp only [parseSceneY] at h
    cases hl : ylookup entries "type" with
    | none => rw [hl] at h; exact Except.noConfusion h
    | some ty =>
      cases ty with
      | list l => rw [hl] at h; exact Except.noConfusion h
      | map m => rw [hl] at h; exact Except.noConfusion h
      | s t =>
        rw [hl] at h
        simp only [Except.ok.injEq] at h
        subst h
        rw [wfScene, List.all_eq_true]
        intro p hp
        obtain ⟨e, he, hg⟩ := List.mem_filterMap.mp hp
        by_cases hk : e.1 = "type"
        · rw [if_pos hk] at hg; exact Option.noConfusion hg
        · rw [if_neg hk] at hg
          obtain ⟨fv, -, hpe⟩ := Option.map_eq_some'.mp hg
          rw [← hpe]
          simpa using hk

/-- `mapMExcept` over a section-wise right inverse returns the original
list. -/
theorem mapMExcept_map_ok {α β : Type} (f : α → Except PyExn β)
    (g : β → α) (l : List β) (h : ∀ b ∈ l, f (g b) = .ok b) :
    mapMExcept f (l.map g) = .ok l := by
  induction l with
  | nil => rfl
  | cons b bs ih =>
    simp only [List.map_cons, mapMExcept]
    rw [h b (List.mem_cons_self b bs),
      ih (fun x hx => h x (List.mem_cons_of_mem b hx))]

/-- Every element of a successful `mapMExcept` run is the successful
image of some input. -/
theorem mapMExcept_ok_mem {α β : Type} (f : α → Except PyExn β)
    (l : List α) (bs : List β) (h : mapMExcept f l = .ok bs) :
    ∀ b ∈ bs, ∃ a, f a = .ok b := by
  induction l generalizing bs with
  | nil =>
    simp only [mapMExcept, Except.ok.injEq] at h
    subst h
    intro b hb
    exact absurd hb (List.not_mem_nil b)
  | cons a as ih =>
    simp only [mapMExcept] at h
    cases hfa : f a with
    | error e => rw [hfa] at h; exact Except.noConfusion h
    | ok b0 =>
      rw [hfa] at h
      cases hrest : mapMExcept f as with
      | error e => rw [hrest] at h; exact Except.noConfusion h
      | ok bs0 =>
        rw [hrest] at h
        simp only [Except.ok.injEq] at h
        subst h
        intro b hb
        rcases List.mem_cons.mp hb with rfl | hb
        · exact ⟨a, hfa⟩
        · exact ih bs0 hrest b hb

/-- Export → re-parse is the identity on a video whose scenes are all
well formed. -/
theorem parseVideoY_export (v : VideoConfig)
    (h : ∀ sc ∈ v.scenes, wfScene sc = true) :
    parseVideoY (exportVideoFile v) = .ok v := by
  obtain ⟨vid, vt, vd, vac, vv, vscenes⟩ := v
  have hm : mapMExcept parseSceneY (vscenes.map exportScene) = .ok vscenes :=
    mapMExcept_map_ok _ _ _ (fun sc hsc => parseSceneY_exportScene sc (h sc hsc))
  have key : parseVideoY (exportVideoFile ⟨vid, vt, vd, vac, vv, vscenes⟩) =
      match mapMExcept parseSceneY (vscenes.map exportScene) with
      | .ok scenes => .ok ⟨vid, vt, vd, vac, vv, scenes⟩
      | .error e => .error e := rfl
  rw [key, hm]

/-- Every scene of every video `parseVideoY` produces is well formed. -/
theorem parseVideoY_wf (y : Yaml) (v : VideoConfig)
    (h : parseVideoY y = .ok v) : ∀ sc ∈ v.scenes, wfScene sc = true := by
  unfold parseVideoY at h
  repeat split at h
  all_goals try exact Except.noConfusion h
  rename_i x1 ss heq1 x2 scenes h3
  simp only [Except.ok.injEq] at h
  subst h
  intro sc hsc
  obtain ⟨a, ha⟩ := mapMExcept_ok_mem parseSceneY ss scenes h3 sc hsc
  exact parseSceneY_wf a sc ha

/-- Export → re-parse is the identity on a `VideoSet` whose scenes are
all well formed, video order, scene order and field-key order
included. -/
theorem parseBundle_exportSet (vs : VideoSet)
    (h : ∀ v ∈ vs.videos, ∀ sc ∈ v.scenes, wfScene sc = true) :
    parseBundle (exportSet vs) = .ok vs := by
  obtain ⟨⟨sid, sname⟩, videos⟩ := vs
  have hm : mapMExcept (fun f => parseVideoY f.2)
      (videos.map (fun v => (v.videoId ++ ".yaml", exportVideoFile v))) =
      .ok videos :=
    mapMExcept_map_ok _ _ _
      (fun v hv => parseVideoY_export v (h v hv))
  have key : parseBundle (exportSet ⟨⟨sid, sname⟩, videos⟩) =
      match mapMExcept (fun f => parseVideoY f.2)
        (videos.map (fun v => (v.videoId ++ ".yaml", exportVideoFile v))) with
      | .ok vids => .ok ⟨⟨sid, sname⟩, vids⟩
      | .error e => .error e := rfl
  rw [key, hm]

/-- C4: Export followed by re-parse is a field-preserving round trip:
whenever the structured-config adapter produces a `VideoSet`, exporting
it to the structured textual form and re-parsing the export reproduces
it exactly — scene ordering, scene types, every field and the order of
mapping keys included (full equality, which subsumes the claim's
projections). -/
theorem export_reparse_roundtrip :
    ∀ (y : Yaml) (vs : VideoSet), yamlAdapt y = .ok vs →
    parseBundle (exportSet vs) = .ok vs := by
  intro y vs h
  unfold yamlAdapt at h
  cases hp : parseVideoY y with
  | error e => rw [hp] at h; exact Except.noConfusion h
  | ok v =>
    rw [hp] at h
    simp only [Except.ok.injEq] at h
    subst h
    apply parseBundle_exportSet
    intro v' hv' sc hsc
    rw [List.mem_singleton.mp hv'] at hsc
    exact parseVideoY_wf y v hp sc hsc

/-- Witness for C4 at a concrete input: the sample structured-config
document round-trips through export and re-parse. -/
theorem export_reparse_roundtrip_witness :
    parseBundle (exportSet sampleVS) = .ok sampleVS :=
  export_reparse_roundtrip sampleYaml sampleVS rfl

/-- C5 counterexample: on input missing the top-level `video` key, the
structured-config adapter fails with a plain `ValueError` (message
"Invalid YAML structure: ..."), not with the dedicated `StructureError`
kind that the claim names — there is no such dedicated error kind in
the code (its own test pins `pytest.raises(ValueError,
match="Invalid YAML structure")`). -/
theorem yaml_missing_video_counterexample :
    yamlAdapt missingVideoYaml =
      .error (.valueError
        "Invalid YAML structure: missing video or scenes key") ∧
    (PyExn.valueError
      "Invalid YAML structure: missing video or scenes key").isStructureError
        = false :=
  ⟨rfl, rfl⟩

/-- C5 amended: when either top-level required key (`video`, `scenes`)
is absent, adaptation fails with a `ValueError` carrying the distinct,
user-readable message "Invalid YAML structure: ..." — a dedicated
message, but carried by the generic `ValueError` type, not by a
dedicated `StructureError` error kind. -/
theorem yaml_missing_keys_amended :
    ∀ entries : List (String × Yaml),
    ylookup entries "video" = none ∨ ylookup entries "scenes" = none →
    yamlAdapt (.map entries) =
      .error (.valueError
        "Invalid YAML structure: missing video or scenes key") ∧
    (∀ e, yamlAdapt (.map entries) = .error e →
      e.isStructureError = false) := by
  intro entries h
  have hmain : yamlAdapt (.map entries) =
      .error (.valueError
        "Invalid YAML structure: missing video or scenes key") := by
    have hv : parseVideoY (.map entries) =
        .error (.valueError
          "Invalid YAML structure: missing video or scenes key") := by
      simp only [parseVideoY]
      rcases h with h | h
      · rw [h]
      · cases h1 : ylookup entries "video" with
        | none => rfl
        | some yv =>
          cases yv with
          | s _ => rfl
          | list _ => rfl
          | map vm => rw [h]
    unfold yamlAdapt
    rw [hv]
  refine ⟨hmain, ?_⟩
  intro e he
  rw [hmain] at he
  rw [← Except.error.inj he]
  rfl

/-- Witness for C5 amended at a concrete input: a mapping with only a
`scenes` key fails with the `ValueError`. -/
theorem yaml_missing_keys_amended_witness :
    yamlAdapt (.map [("scenes", Yaml.list [])]) =
      .error (.valueError
        "Invalid YAML structure: missing video or scenes key") :=
  (yaml_missing_keys_amended [("scenes", Yaml.list [])] (Or.inl rfl)).1

end VideoGen
